import Mathlib

/-!
Verification development for the TaaraESP-SHT21-EmonCMS firmware sketch
(`TaaraESP-SHT21-EmonCMS.ino`).  The sketch runs once per boot: it turns the
status LED on, reads the SHT21 sensor, loads the configuration record from
EEPROM, optionally opens the WiFiManager configuration portal (when the
config button is pressed during the first second), persists freshly entered
configuration, attempts the stored-credential WiFi connection, uploads one
reading to EmonCMS over HTTP(S), and finally either deep-sleeps or blinks a
diagnostic pattern and resets.  The definitions below are a shallow
embedding of that control flow; the theorems settle the specification
claims about it.
-/

/-! ### Diagnostic blink routine (`blink`, sketch lines 63-74)

`blink(times)` toggles the LED `times` times (100 ms on, 100 ms off each),
waits 1000 ms, and repeats while `millis() - start < 5 * 60 * 1000`.
Time is modelled by accumulating the explicit `delay` calls: one pass of
the loop body takes `200 * times + 1000` milliseconds. -/

/-- Milliseconds consumed by one iteration of the outer loop body of
`blink(times)`: `times` short blinks of 100+100 ms plus the 1000 ms pause. -/
def patternPeriod (times : Nat) : Nat := 200 * times + 1000

/-- The elapsed-time evolution of the `while (millis() - start < 5*60*1000)`
loop in `blink`: starting from `elapsed` milliseconds since `start`, run
iterations until the guard fails and return the total elapsed time. -/
def blinkLoop (times elapsed : Nat) : Nat :=
  if elapsed < 300000 then blinkLoop times (elapsed + patternPeriod times) else elapsed
termination_by 300000 - elapsed
decreasing_by
  simp_wf
  simp only [patternPeriod]
  omega

/-- Total wall-clock time spent inside `blink(times)` before it returns. -/
def blinkTotal (times : Nat) : Nat := blinkLoop times 0

/-! ### Uplink response classification (sketch lines 177-228) -/

/-- `line.startsWith("ok")` from sketch line 218: the line begins with the
literal two characters `ok`. -/
def lineStartsOk : List Char → Bool
  | 'o' :: 'k' :: _ => true
  | _ => false

/-- The response-scanning loop of sketch lines 212-222: the `ok` flag ends up
`true` exactly when some response line begins with the literal token `ok`. -/
def responseOk (lines : List String) : Bool :=
  lines.any (fun l => lineStartsOk l.data)

/-- Outcome of one uplink exchange (spec data model `CycleOutcome`,
restricted to the transmitter stage). -/
inductive UplinkOutcome where
  | Success
  | ConnectionFailed
  | ServerRejected
deriving DecidableEq, Repr

/-- Classification performed by sketch lines 177-228: if `client.connect`
fails the exchange is `ConnectionFailed` (line 177), otherwise the response
lines decide between `Success` and `ServerRejected` (lines 212-228). -/
def uplinkOutcome (connects : Bool) (lines : List String) : UplinkOutcome :=
  if connects then
    if responseOk lines then .Success else .ServerRejected
  else .ConnectionFailed

/-- Diagnostic blink count attached to each uplink outcome: `blink(1)` at
line 181 for a failed connection, `blink(2)` at line 225 for a rejected
request, no blinking on success. -/
def outcomeBlinks : UplinkOutcome → Option Nat
  | .Success => none
  | .ConnectionFailed => some 1
  | .ServerRejected => some 2

/-! ### EEPROM configuration record (sketch lines 50-55, 104-105, 153-155)

`struct CONFIG { char host[40]; char apikey[33]; }` is read and written as a
73-byte record at offset 0 of a 100-byte EEPROM region.  Bytes are modelled
as `Nat`; a C string is the byte prefix before the first `0` byte. -/

/-- Size in bytes of `struct CONFIG`: `char host[40]` followed by
`char apikey[33]`. -/
def configSize : Nat := 73

/-- `EEPROM.get<CONFIG>(0, conf)`: read the 73 record bytes at offset 0. -/
def eepromGet (mem : List Nat) : List Nat := mem.take configSize

/-- `EEPROM.put<CONFIG>(0, conf)` followed by `EEPROM.commit()`: overwrite
the first 73 bytes of the region with the record, keeping the tail. -/
def eepromPut (mem record : List Nat) : List Nat :=
  record.take configSize ++ mem.drop configSize

/-- Deep sleep ending in a wakeup reset (`ESP.deepSleep`, line 240) powers
the chip down; the committed flash content survives unchanged. -/
def powerCycle (mem : List Nat) : List Nat := mem

/-- `strcpy` of the bytes `s` into the buffer `buf` at offset `off`: the
copied bytes and a terminating `0` replace that slice; bytes before the
offset and after the terminator keep their previous values. -/
def strcpyAt (buf : List Nat) (off : Nat) (s : List Nat) : List Nat :=
  buf.take off ++ s ++ [0] ++ buf.drop (off + s.length + 1)

/-- Read the C string stored in the field of capacity `cap` at offset `off`
of a record: the bytes before the first `0` terminator. -/
def fieldAt (record : List Nat) (off cap : Nat) : List Nat :=
  ((record.drop off).take cap).takeWhile (fun b => b ≠ 0)

/-! ### Request construction (sketch lines 186-209) -/

/-- Arduino `String(float)` rendering for a non-negative value given in
hundredths: integer part, a dot, and exactly two fractional digits. -/
def fmt2Nat (n : Nat) : String :=
  toString (n / 100) ++ "." ++
    (if n % 100 < 10 then "0" ++ toString (n % 100) else toString (n % 100))

/-- Arduino `String(float)` rendering (two decimal places) of a reading
given in hundredths, signed. -/
def fmt2 (v : Int) : String :=
  if v < 0 then "-" ++ fmt2Nat v.natAbs else fmt2Nat v.natAbs

/-- The URL built by the successive `url +=` statements of sketch lines
191-201, parenthesised exactly as the statements execute. -/
def buildUrl (apikey mac tS hS : String) : String :=
  ((((((((("/input/post.json?node=1&apikey=" ++ apikey)
    ++ "&json=\x7b") ++ mac) ++ ".T:") ++ tS) ++ ",") ++ mac) ++ ".H:") ++ hS) ++ "\x7d"

/-- The request text printed by `client.print` at sketch lines 207-209. -/
def clientRequest (host url : String) : String :=
  ("GET " ++ url ++ " HTTP/1.1\r\n") ++ ("Host: " ++ host ++ "\r\n")
    ++ "Connection: close\r\n\r\n"

/-- The `json={...}` fragment of the URL. -/
def jsonFragment (mac tS hS : String) : String :=
  "\x7b" ++ mac ++ ".T:" ++ tS ++ "," ++ mac ++ ".H:" ++ hS ++ "\x7d"

/-- The request template as the spec states it, written in one piece:
`GET /input/post.json?node=1&apikey=<accessKey>&json={<identity>.T:<t>,<identity>.H:<h>} HTTP/1.1`
with `Host` and `Connection: close` headers. -/
def specRequest (host accessKey identity tS hS : String) : String :=
  "GET /input/post.json?node=1&apikey=" ++ accessKey ++ "&json=\x7b" ++ identity
    ++ ".T:" ++ tS ++ "," ++ identity ++ ".H:" ++ hS ++ "\x7d HTTP/1.1\r\nHost: "
    ++ host ++ "\r\nConnection: close\r\n\r\n"

/-! ### The boot-cycle trace (`setup`, sketch lines 76-242)

`setup` runs exactly once per boot.  Its externally visible actions are
recorded as a list of events; the environment supplies every input the
sketch reads (button level over time, portal results, connection results,
response lines, initial EEPROM content).  `ESP.reset()` ends the cycle, so
no event follows a `reset` in a trace. -/

/-- Externally visible actions of one boot cycle. -/
inductive Event where
  /-- `digitalWrite(LED, HIGH)` at line 83. -/
  | ledOn
  /-- the sensor reads at lines 88-89. -/
  | measure
  /-- `EEPROM.get` at line 105. -/
  | eepromRead
  /-- `wifiManager.startConfigPortal()` at line 136, carrying the portal
  timeout (seconds) in force when it starts. -/
  | portalStart (timeout : Nat)
  /-- `EEPROM.put` + `EEPROM.commit` at lines 153-154. -/
  | eepromWrite
  /-- `wifiManager.autoConnect()` at line 158. -/
  | autoConnectTry
  /-- `digitalWrite(LED, LOW)` at line 160. -/
  | ledOff
  /-- `client.connect(conf.host, port)` at line 177. -/
  | connectTry
  /-- `client.print(...)` at lines 207-209. -/
  | sendRequest
  /-- `blink(n)` at line 181 or 225. -/
  | blinkPattern (times : Nat)
  /-- `ESP.reset()` at line 182 or 226. -/
  | reset
  /-- `ESP.deepSleep(...)` at line 240. -/
  | sleep
deriving DecidableEq, Repr

/-- Inputs one boot cycle consumes from the outside world. -/
structure Env where
  /-- level of the config button over time: `button t = true` when
  `digitalRead(BUTTON) == LOW` (pressed) at `t` milliseconds after the
  sampling loop starts. -/
  button : Nat → Bool
  /-- whether the operator saves new values in the config portal, firing
  the `saveConfig` callback (line 58). -/
  portalSaves : Bool
  /-- host bytes entered in the portal (`custom_host.getValue()`). -/
  portalHost : List Nat
  /-- API-key bytes entered in the portal (`custom_apikey.getValue()`). -/
  portalKey : List Nat
  /-- whether `wifiManager.autoConnect()` (line 158) returns true. -/
  autoConnectOk : Bool
  /-- whether `client.connect(conf.host, port)` (line 177) succeeds. -/
  clientConnects : Bool
  /-- the response lines read at lines 213-222. -/
  responseLines : List String
  /-- EEPROM content at boot. -/
  eeprom : List Nat

/-- The button-sampling loop of lines 128-140 polls `digitalRead(BUTTON)`
then `delay(100)`, while `millis() - start < 1000`: it observes the button
level at the ten instants 0, 100, ..., 900 ms and enters the portal branch
iff some poll reads pressed. -/
def buttonSeen (env : Env) : Bool :=
  (List.range 10).any (fun i => env.button (100 * i))

/-- The `save` flag (line 57) at the `if (save == true)` check of line 145:
initially false, set only by the `saveConfig` callback, which WiFiManager
fires when the operator saves inside the portal opened at line 136. -/
def saveFired (env : Env) : Bool :=
  buttonSeen env && env.portalSaves

/-- The in-RAM `conf` record after the provisioning gate (lines 104-156):
loaded from EEPROM, then overwritten field-by-field via the two `strcpy`
calls of lines 147-148 when the save flag is set. -/
def confAfterGate (env : Env) : List Nat :=
  if saveFired env then
    strcpyAt (strcpyAt (eepromGet env.eeprom) 0 env.portalHost) 40 env.portalKey
  else eepromGet env.eeprom

/-- EEPROM content after the provisioning gate: written back (line 153-154)
exactly when the save flag is set. -/
def eepromAfter (env : Env) : List Nat :=
  if saveFired env then eepromPut env.eeprom (confAfterGate env) else env.eeprom

/-- Events of the uplink block (lines 177-228), entered only after a
successful `autoConnect`: try to connect; on failure `blink(1)` then reset;
otherwise send the request, scan the response, and on a missing `ok` line
`blink(2)` then reset. -/
def uplinkTrace (connects ok : Bool) : List Event :=
  [.connectTry] ++
    (if connects then
      [.sendRequest] ++ (if ok then [] else [.blinkPattern 2, .reset])
    else [.blinkPattern 1, .reset])

/-- The event trace of one execution of `setup` (lines 76-242) under the
environment `env`.  A `reset` ends the cycle, so nothing follows it. -/
def setupTrace (env : Env) : List Event :=
  [.ledOn, .measure, .eepromRead]
  ++ (if buttonSeen env then [.portalStart 0] else [])
  ++ (if saveFired env then [.eepromWrite] else [])
  ++ [.autoConnectTry]
  ++ (if env.autoConnectOk then
        [.ledOff] ++ uplinkTrace env.clientConnects (responseOk env.responseLines)
        ++ (if env.clientConnects && responseOk env.responseLines then [.sleep] else [])
      else [.sleep])

/-- Whether an event is the start of the interactive provisioning portal. -/
def isPortalStart : Event → Bool
  | .portalStart _ => true
  | _ => false

/-- Whether an event is a network operation: provisioning portal (it brings
up the WiFi access point), auto-connect, TCP connect, or the request send. -/
def isNetworkEvent : Event → Bool
  | .portalStart _ => true
  | .autoConnectTry => true
  | .connectTry => true
  | .sendRequest => true
  | _ => false

/-- Whether an event is a diagnostic blink pattern. -/
def isBlinkEvent : Event → Bool
  | .blinkPattern _ => true
  | _ => false

/-- Every `blinkPattern` event in the list is immediately followed by a
`reset` event. -/
def blinkThenReset : List Event → Bool
  | [] => true
  | [e] => !isBlinkEvent e
  | e :: f :: rest =>
      if isBlinkEvent e then (f == Event.reset) && blinkThenReset (f :: rest)
      else blinkThenReset (f :: rest)

/-! ### Concrete environments used to instantiate the theorems -/

/-- A cycle where the config button is held pressed, the operator saves new
values in the portal, and every network step succeeds. -/
def envPortalSave : Env where
  button := fun _ => true
  portalSaves := true
  portalHost := [101, 109, 111, 110]
  portalKey := [107, 101, 121]
  autoConnectOk := true
  clientConnects := true
  responseLines := ["HTTP/1.1 200 OK", "", "ok"]
  eeprom := List.replicate 100 7

/-- A cycle where the button is never pressed and the stored-credential
auto-connect attempt times out. -/
def envNoWifi : Env where
  button := fun _ => false
  portalSaves := false
  portalHost := []
  portalKey := []
  autoConnectOk := false
  clientConnects := false
  responseLines := []
  eeprom := List.replicate 100 7

/-- A cycle where the button is pressed only at millisecond 950: inside the
first second after boot, but strictly between the loop's sampling instants
(the last poll happens at 900 ms). -/
def envLatePress : Env where
  button := fun t => t == 950
  portalSaves := true
  portalHost := []
  portalKey := []
  autoConnectOk := false
  clientConnects := false
  responseLines := []
  eeprom := List.replicate 100 7

/-! ### Helper lemmas -/

/-- Exit bound of the `blink` loop: whatever the starting elapsed time, the
loop only returns once at least 5 minutes have passed (or it was already
past the bound). -/
theorem blinkLoop_ge (times : Nat) :
    ∀ n elapsed, 300000 - elapsed ≤ n → 300000 ≤ blinkLoop times elapsed ∨ 300000 ≤ elapsed := by
  intro n
  induction n with
  | zero =>
    intro elapsed h
    right
    omega
  | succ n ih =>
    intro elapsed h
    by_cases hc : elapsed < 300000
    · rw [blinkLoop, if_pos hc]
      have hp : 1 ≤ patternPeriod times := by
        simp only [patternPeriod]
        omega
      rcases ih (elapsed + patternPeriod times) (by omega) with h1 | h1
      · left; exact h1
      · left
        rw [blinkLoop, if_neg (by omega)]
        exact h1
    · right
      omega

/-- Overrun bound of the `blink` loop: it never runs past the 5-minute
bound by more than one pattern period. -/
theorem blinkLoop_lt (times : Nat) :
    ∀ n elapsed, 300000 - elapsed ≤ n → elapsed < 300000 + patternPeriod times →
      blinkLoop times elapsed < 300000 + patternPeriod times := by
  intro n
  induction n with
  | zero =>
    intro elapsed h hlt
    rw [blinkLoop, if_neg (by omega)]
    exact hlt
  | succ n ih =>
    intro elapsed h hlt
    by_cases hc : elapsed < 300000
    · rw [blinkLoop, if_pos hc]
      have hp : 1 ≤ patternPeriod times := by
        simp only [patternPeriod]
        omega
      exact ih (elapsed + patternPeriod times) (by omega) (by omega)
    · rw [blinkLoop, if_neg hc]
      exact hlt

/-! ### Claims -/

/-- C1: the uplink exchange is classified successful iff some response line
begins with the literal token `ok`; a failed connection yields
`ConnectionFailed`, signalled by the 1-blink pattern, and a completed
exchange with no `ok` line yields `ServerRejected`, signalled by the
2-blink pattern; the two failure outcomes are distinct. -/
theorem claim_C1_uplink_classification (connects : Bool) (lines : List String) :
    (uplinkOutcome connects lines = UplinkOutcome.Success ↔
      (connects = true ∧ responseOk lines = true))
    ∧ (connects = false →
        uplinkOutcome connects lines = UplinkOutcome.ConnectionFailed
        ∧ outcomeBlinks UplinkOutcome.ConnectionFailed = some 1)
    ∧ (connects = true → responseOk lines = false →
        uplinkOutcome connects lines = UplinkOutcome.ServerRejected
        ∧ outcomeBlinks UplinkOutcome.ServerRejected = some 2)
    ∧ UplinkOutcome.ConnectionFailed ≠ UplinkOutcome.ServerRejected := by
  cases connects <;> cases h : responseOk lines <;>
    simp [uplinkOutcome, outcomeBlinks, h]

/-- Concrete instances of the C1 classification: a dead connection is
`ConnectionFailed` and a completed exchange whose lines never start with
`ok` is `ServerRejected`. -/
theorem claim_C1_uplink_classification_witness :
    uplinkOutcome false ["ok"] = UplinkOutcome.ConnectionFailed
    ∧ uplinkOutcome true ["HTTP/1.1 400 Bad Request"] = UplinkOutcome.ServerRejected :=
  ⟨((claim_C1_uplink_classification false ["ok"]).2.1 rfl).1,
   ((claim_C1_uplink_classification true ["HTTP/1.1 400 Bad Request"]).2.2.1 rfl
      (by decide)).1⟩

/-- C2: for every host, access key, identity and reading, the request text
produced by the sketch equals the spec's template
`GET /input/post.json?node=1&apikey=<accessKey>&json={<identity>.T:<t>,<identity>.H:<h>} HTTP/1.1`
with `Host` and `Connection: close` headers, the URL carries the
`json={...}` fragment, and for temperature 23.45, humidity 56.10 and
identity `AABBCCDDEEFF` the fragment is exactly
`{AABBCCDDEEFF.T:23.45,AABBCCDDEEFF.H:56.10}`. -/
theorem claim_C2_request_format (host accessKey mac : String) (t h : Int) :
    clientRequest host (buildUrl accessKey mac (fmt2 t) (fmt2 h))
      = specRequest host accessKey mac (fmt2 t) (fmt2 h)
    ∧ buildUrl accessKey mac (fmt2 t) (fmt2 h)
      = "/input/post.json?node=1&apikey=" ++ accessKey
          ++ ("&json=" ++ jsonFragment mac (fmt2 t) (fmt2 h))
    ∧ jsonFragment "AABBCCDDEEFF" (fmt2 2345) (fmt2 5610)
      = "\x7bAABBCCDDEEFF.T:23.45,AABBCCDDEEFF.H:56.10\x7d" := by
  refine ⟨?_, ?_, ?_⟩
  · apply String.ext
    simp [clientRequest, buildUrl, specRequest, String.data_append]
  · apply String.ext
    simp [buildUrl, jsonFragment, String.data_append]
  · decide

/-- C7: for every blink count, the blink routine is bounded by wall-clock
time, terminating after at least the 5-minute bound but overrunning it by
less than one pattern period; and in every cycle's trace, each diagnostic
blink pattern is immediately followed by a hardware reset. -/
theorem claim_C7_blink_bounded (times : Nat) (env : Env) :
    300000 ≤ blinkTotal times
    ∧ blinkTotal times < 300000 + patternPeriod times
    ∧ blinkThenReset (setupTrace env) = true := by
  refine ⟨?_, ?_, ?_⟩
  · rcases blinkLoop_ge times 300000 0 (by omega) with h | h
    · exact h
    · omega
  · exact blinkLoop_lt times 300000 0 (by omega)
      (by simp only [patternPeriod]; omega)
  · cases hb : buttonSeen env <;> cases hp : env.portalSaves <;>
      cases ha : env.autoConnectOk <;> cases hc : env.clientConnects <;>
      cases hr : responseOk env.responseLines <;>
      simp [setupTrace, saveFired, uplinkTrace, blinkThenReset, isBlinkEvent,
        hb, hp, ha, hc, hr]

/-- `takeWhile` of a zero-free prefix followed by a `0` terminator returns
exactly the prefix. -/
theorem takeWhile_append_stop (l1 l2 : List Nat) (h : ∀ b ∈ l1, b ≠ 0) :
    (l1 ++ 0 :: l2).takeWhile (fun b => b ≠ 0) = l1 := by
  induction l1 with
  | nil => simp
  | cons a l ih =>
    have ha : a ≠ 0 := h a (List.mem_cons_self a l)
    simp only [List.cons_append, List.takeWhile_cons]
    simp only [ha, ne_eq, not_false_eq_true, decide_True, if_true]
    rw [ih (fun b hb => h b (List.mem_cons_of_mem a hb))]

/-- `strcpy` at offset 0 replaces the head of the buffer. -/
theorem strcpyAt_zero (buf s : List Nat) :
    strcpyAt buf 0 s = s ++ 0 :: buf.drop (s.length + 1) := by
  simp [strcpyAt]

/-- `strcpy` inside the buffer bounds preserves the buffer length. -/
theorem strcpyAt_len (buf : List Nat) (off : Nat) (s : List Nat)
    (h : off + s.length + 1 ≤ buf.length) :
    (strcpyAt buf off s).length = buf.length := by
  simp only [strcpyAt, List.length_append, List.length_take, List.length_drop,
    List.length_cons, List.length_nil]
  omega

/-- The `conf` record after the two `strcpy` calls of sketch lines 147-148
still has the 73-byte `CONFIG` size. -/
theorem confRecord_length (conf0 host key : List Nat) (hc : conf0.length = 73)
    (hh : host.length ≤ 39) (hk : key.length ≤ 32) :
    (strcpyAt (strcpyAt conf0 0 host) 40 key).length = 73 := by
  have h2 : (strcpyAt conf0 0 host).length = 73 := by
    rw [strcpyAt_len conf0 0 host (by omega)]
    exact hc
  rw [strcpyAt_len _ 40 key (by omega)]
  exact h2

/-- Reading the `host` field back from the record built by the two `strcpy`
calls returns the copied bytes. -/
theorem confRecord_host (conf0 host key : List Nat) (hc : conf0.length = 73)
    (hh : host.length ≤ 39) (_hk : key.length ≤ 32)
    (hzh : ∀ b ∈ host, b ≠ 0) :
    fieldAt (strcpyAt (strcpyAt conf0 0 host) 40 key) 0 40 = host := by
  have h2 : (strcpyAt conf0 0 host).length = 73 := by
    rw [strcpyAt_len conf0 0 host (by omega)]
    exact hc
  rw [strcpyAt_zero] at h2 ⊢
  unfold fieldAt strcpyAt
  rw [List.drop_zero]
  simp only [List.append_assoc, List.singleton_append]
  have hQ : ((host ++ 0 :: conf0.drop (host.length + 1)).take 40).length = 40 := by
    rw [List.length_take]
    omega
  rw [List.take_append_eq_append_take, List.take_of_length_le (le_of_eq hQ), hQ,
    Nat.sub_self, List.take_zero, List.append_nil]
  rw [List.take_append_eq_append_take, List.take_of_length_le (by omega)]
  obtain ⟨k, hksucc⟩ : ∃ k, 40 - host.length = k + 1 := ⟨39 - host.length, by omega⟩
  rw [hksucc, List.take_succ_cons]
  exact takeWhile_append_stop host _ hzh

/-- Reading the `apikey` field back from the record built by the two
`strcpy` calls returns the copied bytes. -/
theorem confRecord_key (conf0 host key : List Nat) (hc : conf0.length = 73)
    (hh : host.length ≤ 39) (hk : key.length ≤ 32)
    (hzk : ∀ b ∈ key, b ≠ 0) :
    fieldAt (strcpyAt (strcpyAt conf0 0 host) 40 key) 40 33 = key := by
  have h2 : (strcpyAt conf0 0 host).length = 73 := by
    rw [strcpyAt_len conf0 0 host (by omega)]
    exact hc
  set r2 := strcpyAt conf0 0 host with hr2
  unfold fieldAt strcpyAt
  simp only [List.append_assoc, List.singleton_append]
  have hQ : ((r2.take 40)).length = 40 := by
    rw [List.length_take]
    omega
  rw [List.drop_append_eq_append_drop, hQ, Nat.sub_self,
    List.drop_eq_nil_of_le (le_of_eq hQ), List.drop_zero, List.nil_append]
  rw [List.take_append_eq_append_take, List.take_of_length_le (by omega)]
  obtain ⟨k, hksucc⟩ : ∃ k, 33 - key.length = k + 1 := ⟨32 - key.length, by omega⟩
  rw [hksucc, List.take_succ_cons]
  exact takeWhile_append_stop key _ hzk

/-- A 73-byte record written by `EEPROM.put` at offset 0 is returned intact
by `EEPROM.get`. -/
theorem eeprom_roundtrip (mem record : List Nat) (hrec : record.length = 73) :
    eepromGet (eepromPut mem record) = record := by
  unfold eepromGet eepromPut configSize
  rw [List.take_of_length_le (Nat.le_of_eq hrec)]
  rw [← hrec, List.take_left]

/-- C3: a configuration whose host is at most 39 bytes and whose key is at
most 32 bytes, laid out as the 73-byte record (host 40 bytes, apikey 33
bytes) inside the 100-byte reserved region, survives a write at offset 0,
a power cycle and a read back byte-identically, and both field values read
back unchanged. -/
theorem claim_C3_eeprom_roundtrip (host key conf0 mem : List Nat)
    (hh : host.length ≤ 39) (hk : key.length ≤ 32)
    (hc : conf0.length = 73) (hm : mem.length = 100)
    (hzh : ∀ b ∈ host, b ≠ 0) (hzk : ∀ b ∈ key, b ≠ 0) :
    eepromGet (powerCycle (eepromPut mem (strcpyAt (strcpyAt conf0 0 host) 40 key)))
      = strcpyAt (strcpyAt conf0 0 host) 40 key
    ∧ fieldAt (eepromGet (powerCycle (eepromPut mem
        (strcpyAt (strcpyAt conf0 0 host) 40 key)))) 0 40 = host
    ∧ fieldAt (eepromGet (powerCycle (eepromPut mem
        (strcpyAt (strcpyAt conf0 0 host) 40 key)))) 40 33 = key
    ∧ (eepromPut mem (strcpyAt (strcpyAt conf0 0 host) 40 key)).length = 100 := by
  have hlen := confRecord_length conf0 host key hc hh hk
  have hrt : eepromGet (powerCycle (eepromPut mem
      (strcpyAt (strcpyAt conf0 0 host) 40 key)))
      = strcpyAt (strcpyAt conf0 0 host) 40 key := by
    unfold powerCycle
    exact eeprom_roundtrip mem _ hlen
  refine ⟨hrt, ?_, ?_, ?_⟩
  · rw [hrt]
    exact confRecord_host conf0 host key hc hh hk hzh
  · rw [hrt]
    exact confRecord_key conf0 host key hc hh hk hzk
  · unfold eepromPut configSize
    rw [List.length_append, List.length_take, List.length_drop]
    omega

/-- Concrete round trip through the persistent configuration record. -/
theorem claim_C3_eeprom_roundtrip_witness :
    eepromGet (powerCycle (eepromPut (List.replicate 100 2)
      (strcpyAt (strcpyAt (List.replicate 73 1) 0 [104]) 40 [107])))
      = strcpyAt (strcpyAt (List.replicate 73 1) 0 [104]) 40 [107] :=
  (claim_C3_eeprom_roundtrip [104] [107] (List.replicate 73 1) (List.replicate 100 2)
    (by decide) (by decide) (by decide) (by decide) (by decide) (by decide)).1

/-- C5: whenever the provisioning save callback has fired, the gate
overwrites the configuration with the entered values, persists them (the
record read back from EEPROM is exactly the new in-RAM record, whose fields
are the entered values), and the EEPROM write sits in the trace immediately
before the auto-connect attempt that precedes the connect and transmit
stages. -/
theorem claim_C5_save_persists (env : Env)
    (hs : saveFired env = true)
    (hh : env.portalHost.length ≤ 39) (hk : env.portalKey.length ≤ 32)
    (hm : env.eeprom.length = 100)
    (hzh : ∀ b ∈ env.portalHost, b ≠ 0) (hzk : ∀ b ∈ env.portalKey, b ≠ 0) :
    fieldAt (confAfterGate env) 0 40 = env.portalHost
    ∧ fieldAt (confAfterGate env) 40 33 = env.portalKey
    ∧ eepromGet (eepromAfter env) = confAfterGate env
    ∧ ∃ rest, setupTrace env
        = [Event.ledOn, Event.measure, Event.eepromRead, Event.portalStart 0,
           Event.eepromWrite, Event.autoConnectTry] ++ rest := by
  have hb : buttonSeen env = true := by
    have hs2 := hs
    simp only [saveFired, Bool.and_eq_true] at hs2
    exact hs2.1
  have hc0 : (eepromGet env.eeprom).length = 73 := by
    unfold eepromGet configSize
    rw [List.length_take]
    omega
  have hconf : confAfterGate env
      = strcpyAt (strcpyAt (eepromGet env.eeprom) 0 env.portalHost) 40 env.portalKey := by
    simp [confAfterGate, hs]
  refine ⟨?_, ?_, ?_, ?_⟩
  · rw [hconf]
    exact confRecord_host _ _ _ hc0 hh hk hzh
  · rw [hconf]
    exact confRecord_key _ _ _ hc0 hh hk hzk
  · have hlen : (confAfterGate env).length = 73 := by
      rw [hconf]
      exact confRecord_length _ _ _ hc0 hh hk
    simp only [eepromAfter, hs, if_true]
    exact eeprom_roundtrip env.eeprom _ hlen
  · refine ⟨(if env.autoConnectOk then
        [Event.ledOff] ++ uplinkTrace env.clientConnects (responseOk env.responseLines)
          ++ (if env.clientConnects && responseOk env.responseLines then [Event.sleep] else [])
      else [Event.sleep]), ?_⟩
    simp [setupTrace, hb, hs]

/-- Concrete instance of C5: the entered host and key are persisted and the
EEPROM write precedes auto-connect. -/
theorem claim_C5_save_persists_witness :
    fieldAt (confAfterGate envPortalSave) 0 40 = envPortalSave.portalHost
    ∧ eepromGet (eepromAfter envPortalSave) = confAfterGate envPortalSave :=
  ⟨(claim_C5_save_persists envPortalSave (by decide) (by decide) (by decide)
      (by decide) (by decide) (by decide)).1,
   (claim_C5_save_persists envPortalSave (by decide) (by decide) (by decide)
      (by decide) (by decide) (by decide)).2.2.1⟩

/-- C4 counterexample: the button is asserted at millisecond 950 — a moment
within the first second after boot — yet the cycle never starts the
provisioning portal, because the sampling loop of lines 128-140 polls the
button only at 0, 100, ..., 900 ms. -/
theorem claim_C4_counterexample :
    envLatePress.button 950 = true ∧ 950 < 1000
    ∧ (setupTrace envLatePress).all (fun e => !isPortalStart e) = true := by
  refine ⟨by decide, by omega, by decide⟩

/-- C4 (amended): if the config button reads asserted at one of the ten
100 ms-spaced sampling instants of the first second after boot, the cycle
starts the provisioning portal with timeout 0 — no timeout — and the
portal start strictly precedes the auto-connect attempt. -/
theorem claim_C4_portal_before_autoconnect (env : Env)
    (h : buttonSeen env = true) :
    Event.portalStart 0
      ∈ (setupTrace env).takeWhile (fun e => !(e == Event.autoConnectTry))
    ∧ Event.autoConnectTry ∈ setupTrace env := by
  cases hp : env.portalSaves <;> cases ha : env.autoConnectOk <;>
    cases hc : env.clientConnects <;> cases hr : responseOk env.responseLines <;>
    simp only [setupTrace, saveFired, uplinkTrace, h, hp, ha, hc, hr] <;> decide

/-- Concrete instance of the amended C4: with the button held pressed, the
portal starts with no timeout before auto-connect is attempted. -/
theorem claim_C4_portal_before_autoconnect_witness :
    Event.portalStart 0
      ∈ (setupTrace envPortalSave).takeWhile (fun e => !(e == Event.autoConnectTry))
    ∧ Event.autoConnectTry ∈ setupTrace envPortalSave :=
  claim_C4_portal_before_autoconnect envPortalSave (by decide)

/-- C6: when the auto-connect attempt fails (its 300-second bound expires
without a connection), the cycle runs no diagnostic blink pattern, issues
no reset, and reaches the sleep transition instead. -/
theorem claim_C6_autoconnect_timeout_nonfatal (env : Env)
    (h : env.autoConnectOk = false) :
    (∀ n, Event.blinkPattern n ∉ setupTrace env)
    ∧ Event.reset ∉ setupTrace env
    ∧ Event.sleep ∈ setupTrace env := by
  cases hb : buttonSeen env <;> cases hp : env.portalSaves <;>
    simp [setupTrace, saveFired, hb, hp, h]

/-- Concrete instance of C6: with auto-connect failing, the cycle sleeps
and never resets. -/
theorem claim_C6_autoconnect_timeout_nonfatal_witness :
    Event.sleep ∈ setupTrace envNoWifi ∧ Event.reset ∉ setupTrace envNoWifi :=
  ⟨(claim_C6_autoconnect_timeout_nonfatal envNoWifi rfl).2.2,
   (claim_C6_autoconnect_timeout_nonfatal envNoWifi rfl).2.1⟩

/-- C8: in every boot cycle the sensor measurement is the second trace
event (right after the LED turns on), and every network operation — portal,
auto-connect, TCP connect or request send — occurs strictly later. -/
theorem claim_C8_measure_first (env : Env) :
    (setupTrace env).get? 1 = some Event.measure
    ∧ ∀ i e, (setupTrace env).get? i = some e → isNetworkEvent e = true → 1 < i := by
  refine ⟨rfl, ?_⟩
  intro i e hg hn
  match i with
  | 0 =>
    rw [show (setupTrace env).get? 0 = some Event.ledOn from rfl] at hg
    cases hg
    simp [isNetworkEvent] at hn
  | 1 =>
    rw [show (setupTrace env).get? 1 = some Event.measure from rfl] at hg
    cases hg
    simp [isNetworkEvent] at hn
  | 2 =>
    rw [show (setupTrace env).get? 2 = some Event.eepromRead from rfl] at hg
    cases hg
    simp [isNetworkEvent] at hn
  | (n + 3) => omega

/-- Concrete instance of C8: the measurement sits at index 1 and the portal
start, a network operation, sits at index 3. -/
theorem claim_C8_measure_first_witness :
    (setupTrace envPortalSave).get? 1 = some Event.measure ∧ 1 < 3 :=
  ⟨(claim_C8_measure_first envPortalSave).1,
   (claim_C8_measure_first envPortalSave).2 3 (Event.portalStart 0)
     (by decide) (by decide)⟩

/-- C9: the status light is switched off only on the path where
auto-connect succeeds; if auto-connect fails, no request is sent, no
connection is attempted, and the cycle sleeps with the light still on from
boot. -/
theorem claim_C9_led_off_only_on_connect (env : Env) :
    (Event.ledOff ∈ setupTrace env → env.autoConnectOk = true)
    ∧ (env.autoConnectOk = false →
        Event.sendRequest ∉ setupTrace env
        ∧ Event.connectTry ∉ setupTrace env
        ∧ Event.sleep ∈ setupTrace env
        ∧ Event.ledOn ∈ setupTrace env
        ∧ Event.ledOff ∉ setupTrace env) := by
  cases ha : env.autoConnectOk
  · constructor
    · intro hmem
      exfalso
      cases hb : buttonSeen env <;> cases hp : env.portalSaves <;>
        simp [setupTrace, saveFired, hb, hp, ha] at hmem
    · intro _
      cases hb : buttonSeen env <;> cases hp : env.portalSaves <;>
        simp [setupTrace, saveFired, hb, hp, ha]
  · exact ⟨fun _ => rfl, fun hf => absurd hf (by decide)⟩

/-- Concrete instance of C9: with auto-connect failing, the light is never
switched off and the cycle sleeps. -/
theorem claim_C9_led_off_only_on_connect_witness :
    Event.ledOff ∉ setupTrace envNoWifi ∧ Event.sleep ∈ setupTrace envNoWifi :=
  ⟨((claim_C9_led_off_only_on_connect envNoWifi).2 rfl).2.2.2.2,
   ((claim_C9_led_off_only_on_connect envNoWifi).2 rfl).2.2.1⟩

/-- C10: the EEPROM configuration record is written during a cycle iff the
provisioning save callback has fired; on every cycle where it does not
fire, the stored record is left unchanged. -/
theorem claim_C10_eeprom_frame (env : Env) :
    (Event.eepromWrite ∈ setupTrace env ↔ saveFired env = true)
    ∧ (saveFired env = false → eepromAfter env = env.eeprom) := by
  constructor
  · cases hb : buttonSeen env <;> cases hp : env.portalSaves <;>
      cases ha : env.autoConnectOk <;> cases hc : env.clientConnects <;>
      cases hr : responseOk env.responseLines <;>
      simp [setupTrace, saveFired, uplinkTrace, hb, hp, ha, hc, hr]
  · intro h
    simp [eepromAfter, h]

/-- Concrete instance of C10: a cycle without the save callback leaves the
stored record untouched. -/
theorem claim_C10_eeprom_frame_witness :
    eepromAfter envNoWifi = envNoWifi.eeprom :=
  (claim_C10_eeprom_frame envNoWifi).2 rfl
